import Mathlib

/-!
Verification of the myaws4win repository (a Windows tray utility driving the
AWS CLI) against its natural-language specification.

The Python sources are shallowly embedded below:

* `src/myaws_win/config.py`   : `AppConfig`, `_deep_update`, `load_config`
* `src/myaws_win/aws_cli.py`  : `_resolve_executable`
* `src/myaws_win/service.py`  : `_get_cost_payload`, `update_image`
* `src/myaws_win/tray_app.py` : `refresh`, `_run_async`

Pure helpers become Lean functions; the filesystem, the AWS CLI subprocess and
the ssh subprocess become explicit environments (oracles) passed to the
embedded functions, which also return the sequence of external calls they
issued.  Python exceptions become `Except String`.  The two tray methods that
involve threads (`refresh`, the `_run_async` runner) are embedded as a
small-step thread semantics over an explicit shared-state record, so that
statements about interleavings can be made.
-/

/-! ## Python `datetime.date` fragment

`service.py` uses `datetime.date.today()`, `date.replace(day=1)`,
`date - timedelta(days=1)` and `strftime` with the formats `%Y%m%d` and
`%Y-%m-%d`.  A Python `date` is a triple of year (1..9999), month, day. -/

structure PyDate where
  year : Nat
  month : Nat
  day : Nat
deriving DecidableEq

/-- Gregorian leap-year rule used by `datetime`. -/
def isLeapYear (y : Nat) : Bool :=
  y % 4 == 0 && (y % 100 != 0 || y % 400 == 0)

def daysInMonth (y m : Nat) : Nat :=
  if m == 2 then (if isLeapYear y then 29 else 28)
  else if m == 4 || m == 6 || m == 9 || m == 11 then 30
  else 31

/-- The range of dates representable by Python `datetime.date`. -/
def validDate (d : PyDate) : Prop :=
  1 ≤ d.year ∧ d.year ≤ 9999 ∧ 1 ≤ d.month ∧ d.month ≤ 12 ∧
    1 ≤ d.day ∧ d.day ≤ daysInMonth d.year d.month

instance (d : PyDate) : Decidable (validDate d) := by
  unfold validDate; infer_instance

/-- Python `date.replace(day=n)`. -/
def replaceDay (d : PyDate) (n : Nat) : PyDate :=
  ⟨d.year, d.month, n⟩

/-- Python `date - timedelta(days=1)`. -/
def prevDay (d : PyDate) : PyDate :=
  if 1 < d.day then ⟨d.year, d.month, d.day - 1⟩
  else if 1 < d.month then ⟨d.year, d.month - 1, daysInMonth d.year (d.month - 1)⟩
  else ⟨d.year - 1, 12, 31⟩

/-- Render `n` as exactly `k` decimal digits (most significant first),
zero-padded; used to embed `strftime` zero-padded numeric fields. -/
def padDigits : Nat → Nat → List Char
  | 0, _ => []
  | k + 1, n => padDigits k (n / 10) ++ [Char.ofNat (48 + n % 10)]

/-- Python `date.strftime("%Y%m%d")`. -/
def ymdCompact (d : PyDate) : String :=
  String.mk (padDigits 4 d.year ++ padDigits 2 d.month ++ padDigits 2 d.day)

/-- Python `date.strftime("%Y-%m-%d")`. -/
def isoDate (d : PyDate) : String :=
  String.mk (padDigits 4 d.year ++ ['-'] ++ padDigits 2 d.month ++ ['-'] ++ padDigits 2 d.day)

/-! ## JSON values

`service.py` moves parsed JSON around (`json.loads` output of the AWS CLI and
of cache files).  Numbers are kept as their source text; no claim computes
with them.  A file written with `json.dumps(payload)` and read back with
`json.loads` yields the same value, so the cache filesystem below stores the
parsed value directly. -/

inductive Json where
  | null
  | jbool (b : Bool)
  | num (s : String)
  | str (s : String)
  | arr (xs : List Json)
  | obj (kvs : List (String × Json))

/-! ## Python `in` on strings (substring test) -/

/-- Bool test: the first list is a prefix of the second. -/
def leadsList : List Char → List Char → Bool
  | [], _ => true
  | _ :: _, [] => false
  | a :: as, b :: bs => a == b && leadsList as bs

/-- Bool test: the first list occurs as a contiguous sublist of the second. -/
def containsList (needle : List Char) : List Char → Bool
  | [] => needle.isEmpty
  | c :: rest => leadsList needle (c :: rest) || containsList needle rest

/-- Python `needle in hay` for strings. -/
def strContains (hay needle : String) : Bool :=
  containsList needle.data hay.data

/-- `hay` has `needle` as a contiguous substring (propositional form). -/
def SubstrOf (needle hay : String) : Prop :=
  ∃ p q : List Char, hay.data = p ++ needle.data ++ q

/-! ## `MyAwsService._get_cost_payload` (service.py lines 100-133)

The filesystem under the state directory is an oracle `fs` from file name to
the stored payload (`none` = file absent); the AWS CLI is an oracle `remote`
from the argument vector passed to `run_json` to its outcome.  The embedding
returns the result, the updated filesystem, and the list of `run_json`
argument vectors issued. -/

structure CostEnv where
  today : PyDate
  fs : String → Option Json
  remote : List String → Except String Json

structure CostOut where
  result : Except String Json
  fs : String → Option Json
  calls : List (List String)

/-- The `month_start` computation of `_get_cost_payload`:
`month_start = today.replace(day=1)`, and when `today == month_start`
additionally `month_start = (month_start - timedelta(days=1)).replace(day=1)`. -/
def costMonthStart (today : PyDate) : PyDate :=
  let ms := replaceDay today 1
  if today = ms then replaceDay (prevDay ms) 1 else ms

/-- `self._cache_file(prefix, today)` yields
`{state_dir}/{prefix}-{today:%Y%m%d}.json`; the constant state directory is
omitted from the name. -/
def cacheFileName (granularity : String) (today : PyDate) : String :=
  (if granularity = "MONTHLY" then "myaws-costs-monthly" else "myaws-costs-daily")
    ++ "-" ++ ymdCompact today ++ ".json"

/-- Argument vector of the single `run_json` call in `_get_cost_payload`. -/
def costArgs (granularity : String) (start today : PyDate) : List String :=
  ["ce", "get-cost-and-usage",
   "--time-period",
   "Start=" ++ isoDate start ++ ",End=" ++ isoDate today,
   "--granularity", granularity,
   "--metrics", "BlendedCost",
   "--group-by", "Type=DIMENSION,Key=SERVICE"]

/-- The downgraded result for a cost query whose data is not yet available. -/
def emptyResults : Json :=
  Json.obj [("ResultsByTime", Json.arr [])]

/-- Embedding of `MyAwsService._get_cost_payload`. -/
def get_cost_payload (granularity : String) (env : CostEnv) : CostOut :=
  let today := env.today
  let monthStart := costMonthStart today
  let fileName := cacheFileName granularity today
  match env.fs fileName with
  | some payload => ⟨Except.ok payload, env.fs, []⟩
  | none =>
    let args := costArgs granularity monthStart today
    match env.remote args with
    | Except.error message =>
        if strContains message "DataUnavailableException"
            || strContains message "GetCostAndUsage" then
          ⟨Except.ok emptyResults, env.fs, [args]⟩
        else
          ⟨Except.error message, env.fs, [args]⟩
    | Except.ok payload =>
        ⟨Except.ok payload,
         fun n => if n = fileName then some payload else env.fs n,
         [args]⟩

/-- Spec-side comparator for claim C4, following the words of the spec: a
failure message indicates that cost data is not yet available for the period
exactly when it reports the Cost Explorer `DataUnavailableException`. -/
def specIndicatesDataUnavailable (message : String) : Bool :=
  strContains message "DataUnavailableException"

/-! ## `config.py`

`AppConfig` is a dataclass whose defaults are given in the source;
`_deep_update` merges two JSON documents (dicts merged recursively, any other
override value replaces the base value); `load_config`, when the settings file
exists, parses it and calls `AppConfig(**_deep_update(asdict(defaults), raw))`.
Python dicts are embedded as association lists in insertion order. -/

def DEFAULT_VM_TYPES : List (String × List (String × String)) :=
  [("m5",
    [(".4xlarge", "(  16 vcpu, 64Gb vram )"),
     (".12xlarge", "(  48 vcpu, 192Gb vram )"),
     (".24xlarge", "(  96 vcpu, 384Gb vram )")]),
   ("m6i",
    [(".4xlarge", "(  16 vcpu, 64Gb vram )"),
     (".12xlarge", "(  48 vcpu, 192Gb vram )"),
     (".24xlarge", "(  96 vcpu, 384Gb vram )"),
     (".32xlarge", "( 128 vcpu, 512Gb vram )")]),
   ("m7i",
    [(".4xlarge", "(  16 vcpu, 64Gb vram )"),
     (".12xlarge", "(  48 vcpu, 192Gb vram )"),
     (".24xlarge", "(  96 vcpu, 384Gb vram )"),
     (".48xlarge", "( 192 vcpu, 768Gb vram )")]),
   ("c5",
    [(".4xlarge", "(  16 vcpu, 32Gb vram )"),
     (".9xlarge", "(  36 vcpu, 72Gb vram )"),
     (".18xlarge", "(  72 vcpu, 144Gb vram )"),
     (".24xlarge", "(  96 vcpu, 192Gb vram )")]),
   ("c6i",
    [(".4xlarge", "(  16 vcpu, 32Gb vram )"),
     (".12xlarge", "(  48 vcpu, 96Gb vram )"),
     (".24xlarge", "(  96 vcpu, 192Gb vram )"),
     (".32xlarge", "( 128 vcpu, 256Gb vram )")]),
   ("c7i",
    [(".4xlarge", "(  16 vcpu, 32Gb vram )"),
     (".12xlarge", "(  48 vcpu, 96Gb vram )"),
     (".24xlarge", "(  96 vcpu, 192Gb vram )"),
     (".48xlarge", "( 192 vcpu, 384Gb vram )")]),
   ("u-6tb1", [(".112xlarge", "( 448 vcpu, 6Tb vram )")])]

structure AppConfig where
  aws_owner_id : String := "615416975922"
  aws_key_name : String := "pvdabeel@mac.com"
  aws_security_group_id : String := "sg-bce547d1"
  aws_region : String := "eu-central-1"
  aws_location_name : String := "EU (Frankfurt)"
  aws_operating_system : String := "Linux"
  aws_profile : String := ""
  aws_executable : String := "aws"
  ssh_executable : String := "ssh"
  ssh_user : String := "root"
  ssh_known_hosts_file : String := ""
  state_dir : String := ""
  preferred_currency : String := "EUR"
  default_vmtype_update : String := "m7i.12xlarge"
  default_vmtype_rebuild : String := "m7i.48xlarge"
  update_command : String := "update"
  rebuild_command : String := "fullupdate"
  refresh_interval_seconds : Nat := 900
  vm_types : List (String × List (String × String)) := DEFAULT_VM_TYPES

/-- Python dict lookup `d.get(k)` on an association list. -/
def assocLookup : List (String × Json) → String → Option Json
  | [], _ => none
  | (k2, v) :: rest, k => if k2 = k then some v else assocLookup rest k

/-- Python dict assignment `d[k] = v`: replaces in place when the key exists
(insertion order kept), appends otherwise. -/
def assocSet : List (String × Json) → String → Json → List (String × Json)
  | [], k, v => [(k, v)]
  | (k2, v2) :: rest, k, v =>
      if k2 = k then (k2, v) :: rest else (k2, v2) :: assocSet rest k v

mutual

/-- Embedding of `_deep_update` (config.py lines 109-116) on two dict values. -/
def deep_update : Json → Json → Json
  | Json.obj base, Json.obj override => Json.obj (deepUpdateEntries base override)
  | _, override => override
termination_by b o => sizeOf o

/-- The merged value for one override entry: when both the override value and
the value currently present under the key are dicts, merge recursively;
otherwise the override value replaces whatever was there. -/
def mergeValue : Json → Option Json → Json
  | Json.obj vo, some (Json.obj bo) => deep_update (Json.obj bo) (Json.obj vo)
  | v, _ => v
termination_by v o => sizeOf v + 1

/-- The loop of `_deep_update`: fold the override entries over a copy of the
base dict. -/
def deepUpdateEntries : List (String × Json) → List (String × Json) → List (String × Json)
  | base, [] => base
  | base, (k, v) :: rest =>
      deepUpdateEntries (assocSet base k (mergeValue v (assocLookup base k))) rest
termination_by base override => sizeOf override

end

/-- `dataclasses.asdict(AppConfig())`: the default settings document.  Its
keys are exactly the dataclass field names, in declaration order. -/
def defaultsDoc : List (String × Json) :=
  [("aws_owner_id", Json.str "615416975922"),
   ("aws_key_name", Json.str "pvdabeel@mac.com"),
   ("aws_security_group_id", Json.str "sg-bce547d1"),
   ("aws_region", Json.str "eu-central-1"),
   ("aws_location_name", Json.str "EU (Frankfurt)"),
   ("aws_operating_system", Json.str "Linux"),
   ("aws_profile", Json.str ""),
   ("aws_executable", Json.str "aws"),
   ("ssh_executable", Json.str "ssh"),
   ("ssh_user", Json.str "root"),
   ("ssh_known_hosts_file", Json.str ""),
   ("state_dir", Json.str ""),
   ("preferred_currency", Json.str "EUR"),
   ("default_vmtype_update", Json.str "m7i.12xlarge"),
   ("default_vmtype_rebuild", Json.str "m7i.48xlarge"),
   ("update_command", Json.str "update"),
   ("rebuild_command", Json.str "fullupdate"),
   ("refresh_interval_seconds", Json.num "900"),
   ("vm_types",
    Json.arr (DEFAULT_VM_TYPES.map (fun g =>
      Json.arr [Json.str g.1,
        Json.arr (g.2.map (fun p => Json.arr [Json.str p.1, Json.str p.2]))])))]

/-- The recognized configuration fields: the keyword parameters accepted by
the generated `AppConfig.__init__`. -/
def appConfigFieldNames : List String := defaultsDoc.map Prod.fst

/-- Embedding of the existing-file branch of `load_config` (config.py lines
132-134): `merged = _deep_update(asdict(defaults), raw)` followed by
`AppConfig(**merged)`.  Passing `merged` as keyword arguments makes the
generated dataclass `__init__` raise `TypeError` on any key that is not a
declared field; that rejection is embedded as the key check below. -/
def load_config_from_doc (raw : List (String × Json)) : Except String (List (String × Json)) :=
  let merged := deepUpdateEntries defaultsDoc raw
  if merged.all (fun kv => kv.1 ∈ appConfigFieldNames) then Except.ok merged
  else Except.error "__init__() got an unexpected keyword argument"

/-! ## `AwsCli._resolve_executable` (aws_cli.py lines 16-39)

`shutil.which`, `Path.expanduser` and `Path.exists` are environment oracles. -/

structure PathEnv where
  which : String → Option String
  expand : String → String
  pathExists : String → Bool

/-- One candidate of the loop body: `shutil.which(candidate)` first, then the
literal filesystem location `Path(candidate).expanduser()`. -/
def resolveCandidate (env : PathEnv) (c : String) : Option String :=
  match env.which c with
  | some r => some r
  | none => if env.pathExists (env.expand c) then some (env.expand c) else none

/-- The loop of `_resolve_executable`: first non-empty candidate that
resolves wins. -/
def resolveFirst (env : PathEnv) : List String → Option String
  | [] => none
  | c :: rest =>
      if c = "" then resolveFirst env rest
      else
        match resolveCandidate env c with
        | some r => some r
        | none => resolveFirst env rest

/-- Python `", ".join(parts)`. -/
def joinComma : List String → String
  | [] => ""
  | [c] => c
  | c :: c2 :: rest => c ++ ", " ++ joinComma (c2 :: rest)

/-- The construct-time error message of `_resolve_executable`. -/
def notFoundMsg (displayName : String) (candidates : List String) : String :=
  let nonEmpty := candidates.filter (fun c => decide (c ≠ ""))
  let primary := nonEmpty.headD ""
  displayName ++ " executable not found. Checked: " ++ joinComma nonEmpty
    ++ ". Install " ++ displayName
    ++ " and ensure it is in PATH, or set the full path in config (current: '"
    ++ primary ++ "')."

/-- Embedding of `AwsCli._resolve_executable`. -/
def resolve_executable (env : PathEnv) (candidates : List String)
    (displayName : String) : Except String String :=
  match resolveFirst env candidates with
  | some r => Except.ok r
  | none => Except.error (notFoundMsg displayName candidates)

/-! ## `MyAwsService.update_image` (service.py lines 299-329)

Each external call made by `update_image` gets an outcome from an environment
record: the occurrences are listed in source order, with the success-path
`terminate_instance` call and the one inside the `except` handler kept apart.
`run_ssh` returns the numeric exit status of the ssh subprocess (an `Except`
because `subprocess.call` can itself raise).  The embedding returns the list
of issued calls and the overall outcome. -/

inductive ACall where
  | runInstances (imageId vmType : String)
  | waitRunning (instanceId : String)
  | describeDns (instanceId : String)
  | sleepSecs (n : Nat)
  | sshCmd (dnsName remoteCmd : String)
  | createImage (instanceId : String)
  | waitImage (imageId : String)
  | terminateCall (instanceId : String)
  | deregisterCall (imageId : String)
  | deleteSnapCall (snapshotId : String)
deriving DecidableEq

structure UpdateEnv where
  run_instances : Except String String
  wait_running : Except String Unit
  describe_dns : Except String String
  ssh_status : Except String Int
  create_image : Except String String
  wait_image : Except String Unit
  term_success : Except String Unit
  deregister_image : Except String Unit
  delete_snapshot : Except String Unit
  term_cleanup : Except String Unit

/-- The body of the `try:` block of `update_image` (after the worker instance
was launched), without the `except` handler: trace of calls and outcome. -/
def update_image_try (cfg : AppConfig) (env : UpdateEnv) (amiToUpdate amiSnapshotId : String)
    (rebuild : Bool) (instanceId : String) : List ACall × Except String String :=
  let remoteCmd := if rebuild then cfg.rebuild_command else cfg.update_command
  match env.wait_running with
  | Except.error e => ([ACall.waitRunning instanceId], Except.error e)
  | Except.ok _ =>
  match env.describe_dns with
  | Except.error e =>
      ([ACall.waitRunning instanceId, ACall.describeDns instanceId], Except.error e)
  | Except.ok dnsName =>
    let t1 := [ACall.waitRunning instanceId, ACall.describeDns instanceId,
               ACall.sleepSecs 60, ACall.sshCmd dnsName remoteCmd]
    match env.ssh_status with
    | Except.error e => (t1, Except.error e)
    | Except.ok outcome =>
      if outcome ≠ 0 then (t1, Except.error "Remote update command failed")
      else
        match env.create_image with
        | Except.error e => (t1 ++ [ACall.createImage instanceId], Except.error e)
        | Except.ok newImage =>
          let t2 := t1 ++ [ACall.createImage instanceId, ACall.waitImage newImage]
          match env.wait_image with
          | Except.error e => (t2, Except.error e)
          | Except.ok _ =>
            match env.term_success with
            | Except.error e => (t2 ++ [ACall.terminateCall instanceId], Except.error e)
            | Except.ok _ =>
              let t3 := t2 ++ [ACall.terminateCall instanceId, ACall.deregisterCall amiToUpdate]
              match env.deregister_image with
              | Except.error e => (t3, Except.error e)
              | Except.ok _ =>
                match env.delete_snapshot with
                | Except.error e => (t3 ++ [ACall.deleteSnapCall amiSnapshotId], Except.error e)
                | Except.ok _ =>
                    (t3 ++ [ACall.deleteSnapCall amiSnapshotId], Except.ok newImage)

/-- Embedding of `MyAwsService.update_image`: `run_instances` happens before
the `try:`; on any exception inside it, the handler runs
`self.terminate_instance(instance_id)` and then re-raises.  Per Python
semantics, an exception raised by the handler itself (the terminate call)
propagates in place of the original one. -/
def update_image (cfg : AppConfig) (env : UpdateEnv) (amiToUpdate amiSnapshotId : String)
    (rebuild : Bool) : List ACall × Except String String :=
  let vmType := if rebuild then cfg.default_vmtype_rebuild else cfg.default_vmtype_update
  match env.run_instances with
  | Except.error e => ([ACall.runInstances amiToUpdate vmType], Except.error e)
  | Except.ok instanceId =>
    let inner := update_image_try cfg env amiToUpdate amiSnapshotId rebuild instanceId
    match inner.2 with
    | Except.ok newImage =>
        (ACall.runInstances amiToUpdate vmType :: inner.1, Except.ok newImage)
    | Except.error e =>
        match env.term_cleanup with
        | Except.ok _ =>
            (ACall.runInstances amiToUpdate vmType :: inner.1 ++ [ACall.terminateCall instanceId],
             Except.error e)
        | Except.error cleanupErr =>
            (ACall.runInstances amiToUpdate vmType :: inner.1 ++ [ACall.terminateCall instanceId],
             Except.error cleanupErr)

/-! ## `TrayApp.refresh` and the `_run_async` runner (tray_app.py)

Shared state of the tray controller: the non-blocking refresh guard
(`self._refresh_lock`), the held snapshot (`self.state`), the last-error field
(`self.last_error`), and, as observations, a count of menu re-renders
(`self.icon.update_menu()` calls) and a log of events.  The snapshot type is a
parameter: `refresh` stores whatever `get_snapshot` returns without
inspecting it. -/

inductive Event where
  | refreshCall (force : Bool)
  | errWrite (message : String)
  | notice (title message : String)
  | render
deriving DecidableEq

structure GState (σ : Type) where
  lockHeld : Bool
  snapshot : Option σ
  lastError : String
  renders : Nat
  log : List Event

/-- Program counter of one `refresh(force)` invocation, at the granularity of
its writes to shared state:
`entry` = the non-blocking `acquire`; `body` = the `get_snapshot()` call plus,
on success, the write to `self.state`; `clearErr` = `self.last_error = ""`;
`notifyOk` = the forced-refresh notification; `recErr e` =
`self.last_error = str(exc)`; `release` = lock release; `menu` =
`self.icon.update_menu()`; `retSkip`/`ret` = returned. -/
inductive RPc where
  | entry
  | body
  | clearErr
  | notifyOk
  | recErr (e : String)
  | release
  | menu
  | retSkip
  | ret
deriving DecidableEq

/-- One `refresh` invocation: its `force` argument, the outcome its
`get_snapshot()` call will have, and its program counter. -/
structure RThread (σ : Type) where
  force : Bool
  build : Except String σ
  pc : RPc

def RPc.isDone : RPc → Bool
  | RPc.entry => false
  | RPc.body => false
  | RPc.clearErr => false
  | RPc.notifyOk => false
  | RPc.recErr _ => false
  | RPc.release => false
  | RPc.menu => false
  | RPc.retSkip => true
  | RPc.ret => true

/-- Program points at which the refresh guard is held. -/
def RPc.inCS : RPc → Bool
  | RPc.entry => false
  | RPc.body => true
  | RPc.clearErr => true
  | RPc.notifyOk => true
  | RPc.recErr _ => true
  | RPc.release => true
  | RPc.menu => false
  | RPc.retSkip => false
  | RPc.ret => false

/-- One small step of a `refresh` invocation against the shared state. -/
def rstep {σ : Type} (s : GState σ) (t : RThread σ) : GState σ × RThread σ :=
  match t.pc with
  | RPc.entry =>
      if s.lockHeld then
        ({ s with log := s.log ++ [Event.refreshCall t.force] }, { t with pc := RPc.retSkip })
      else
        ({ s with lockHeld := true, log := s.log ++ [Event.refreshCall t.force] },
         { t with pc := RPc.body })
  | RPc.body =>
      match t.build with
      | Except.ok snap => ({ s with snapshot := some snap }, { t with pc := RPc.clearErr })
      | Except.error e => (s, { t with pc := RPc.recErr e })
  | RPc.clearErr =>
      ({ s with lastError := "", log := s.log ++ [Event.errWrite ""] },
       { t with pc := RPc.notifyOk })
  | RPc.notifyOk =>
      (if t.force then { s with log := s.log ++ [Event.notice "MyAWS" "Data refreshed"] } else s,
       { t with pc := RPc.release })
  | RPc.recErr e =>
      ({ s with lastError := e, log := s.log ++ [Event.errWrite e] },
       { t with pc := RPc.release })
  | RPc.release =>
      ({ s with lockHeld := false }, { t with pc := RPc.menu })
  | RPc.menu =>
      ({ s with renders := s.renders + 1, log := s.log ++ [Event.render] },
       { t with pc := RPc.ret })
  | RPc.retSkip => (s, t)
  | RPc.ret => (s, t)

/-- Run one `refresh` invocation to completion, sequentially (fuel-bounded;
seven steps suffice). -/
def runThread {σ : Type} : Nat → GState σ → RThread σ → GState σ × RThread σ
  | 0, s, t => (s, t)
  | n + 1, s, t =>
      if t.pc.isDone then (s, t)
      else runThread n (rstep s t).1 (rstep s t).2

/-- Embedding of a full sequential `refresh(force)` call whose
`get_snapshot()` would yield `build`. -/
def refreshRun {σ : Type} (force : Bool) (build : Except String σ) (s : GState σ) :
    GState σ × RThread σ :=
  runThread 8 s ⟨force, build, RPc.entry⟩

/-- Embedding of the `runner` closure of `TrayApp._run_async` (tray_app.py
lines 52-64): run the action; on success clear the last-error field and
notify, on failure record the message and notify; in the `finally:` block
call `refresh(force=True)`, whose `get_snapshot()` would yield `build`. -/
def runnerRun {σ : Type} (outcome : Except String Unit) (actionName : String)
    (build : Except String σ) (s : GState σ) : GState σ :=
  let s1 :=
    match outcome with
    | Except.ok _ =>
        { s with lastError := "",
                 log := s.log ++ [Event.errWrite "",
                                  Event.notice "MyAWS" (actionName ++ " completed")] }
    | Except.error e =>
        { s with lastError := e,
                 log := s.log ++ [Event.errWrite e,
                                  Event.notice "MyAWS" (actionName ++ " failed: " ++ e)] }
  (refreshRun true build s1).1

/-- Interleaving semantics for any number of concurrent `refresh`
invocations: a step picks one unfinished invocation and advances it. -/
inductive SysStep {σ : Type} :
    GState σ × List (RThread σ) → GState σ × List (RThread σ) → Prop where
  | pick (s : GState σ) (ts : List (RThread σ)) (i : Nat) (h : i < ts.length)
      (hrun : (ts.get ⟨i, h⟩).pc.isDone = false) :
      SysStep (s, ts)
        ((rstep s (ts.get ⟨i, h⟩)).1, ts.set i (rstep s (ts.get ⟨i, h⟩)).2)

/-- Number of invocations currently inside the guarded region (the snapshot
build and the writes it protects). -/
def csCount {σ : Type} (ts : List (RThread σ)) : Nat :=
  ts.countP (fun t => t.pc.inCS)

/-! ## Helper lemmas: zero-padded date strings are injective -/

theorem padDigits_length (k : Nat) : ∀ n, (padDigits k n).length = k := by
  induction k with
  | zero => intro n; simp [padDigits]
  | succ k ih => intro n; simp [padDigits, ih]

theorem digitChar_inj :
    ∀ a < 10, ∀ b < 10, Char.ofNat (48 + a) = Char.ofNat (48 + b) → a = b := by
  decide

theorem padDigits_inj (k : Nat) :
    ∀ a b, a < 10 ^ k → b < 10 ^ k → padDigits k a = padDigits k b → a = b := by
  induction k with
  | zero =>
      intro a b ha hb _
      simp at ha hb
      omega
  | succ k ih =>
      intro a b ha hb h
      simp only [padDigits] at h
      obtain ⟨h1, h2⟩ := List.append_inj h (by simp [padDigits_length])
      have hdivA : a / 10 < 10 ^ k := by
        rw [Nat.div_lt_iff_lt_mul (by norm_num)]
        calc a < 10 ^ (k + 1) := ha
          _ = 10 ^ k * 10 := by rw [pow_succ]
      have hdivB : b / 10 < 10 ^ k := by
        rw [Nat.div_lt_iff_lt_mul (by norm_num)]
        calc b < 10 ^ (k + 1) := hb
          _ = 10 ^ k * 10 := by rw [pow_succ]
      have hq : a / 10 = b / 10 := ih _ _ hdivA hdivB h1
      have hchar : Char.ofNat (48 + a % 10) = Char.ofNat (48 + b % 10) := by
        simpa using h2
      have hm : a % 10 = b % 10 :=
        digitChar_inj _ (Nat.mod_lt _ (by norm_num)) _ (Nat.mod_lt _ (by norm_num)) hchar
      omega

theorem daysInMonth_le (y m : Nat) : daysInMonth y m ≤ 31 := by
  unfold daysInMonth
  split
  · split <;> norm_num
  · split <;> norm_num

theorem ymdCompact_inj (d1 d2 : PyDate) (h1 : validDate d1) (h2 : validDate d2)
    (h : ymdCompact d1 = ymdCompact d2) : d1 = d2 := by
  obtain ⟨hy1a, hy1b, hm1a, hm1b, hd1a, hd1b⟩ := h1
  obtain ⟨hy2a, hy2b, hm2a, hm2b, hd2a, hd2b⟩ := h2
  have hdata := congrArg String.data h
  simp only [ymdCompact] at hdata
  obtain ⟨hyear, hrest⟩ := List.append_inj
    (by simpa [List.append_assoc] using hdata) (by simp [padDigits_length])
  obtain ⟨hmonth, hday⟩ := List.append_inj hrest (by simp [padDigits_length])
  have hdm1 : d1.day ≤ 31 := le_trans hd1b (daysInMonth_le _ _)
  have hdm2 : d2.day ≤ 31 := le_trans hd2b (daysInMonth_le _ _)
  have ey : d1.year = d2.year := padDigits_inj 4 _ _ (by omega) (by omega) hyear
  have em : d1.month = d2.month := padDigits_inj 2 _ _ (by omega) (by omega) hmonth
  have ed : d1.day = d2.day := padDigits_inj 2 _ _ (by omega) (by omega) hday
  cases d1; cases d2
  simp_all

theorem cacheFileName_inj (granularity : String) (d1 d2 : PyDate)
    (h1 : validDate d1) (h2 : validDate d2)
    (h : cacheFileName granularity d1 = cacheFileName granularity d2) : d1 = d2 := by
  apply ymdCompact_inj d1 d2 h1 h2
  have hdata := congrArg String.data h
  simp only [cacheFileName, String.data_append, List.append_assoc] at hdata
  have hmid := List.append_cancel_left (List.append_cancel_left hdata)
  have := List.append_inj hmid (by simp [ymdCompact, padDigits_length])
  have hlist : (ymdCompact d1).data = (ymdCompact d2).data := this.1
  cases hym1 : ymdCompact d1
  cases hym2 : ymdCompact d2
  simp [hym1, hym2] at hlist
  simp [hlist]

/-! ## Claim C8: the cost query time window -/

/-- Every remote cost call issued by `get_cost_payload` carries the window
`Start=month_start,End=today`. -/
theorem cost_calls_args (granularity : String) (env : CostEnv) :
    ∀ a ∈ (get_cost_payload granularity env).calls,
      a = costArgs granularity (costMonthStart env.today) env.today := by
  intro a ha
  unfold get_cost_payload at ha
  cases hfs : env.fs (cacheFileName granularity env.today) with
  | some p => simp [hfs] at ha
  | none =>
      cases hrem : env.remote (costArgs granularity (costMonthStart env.today) env.today) with
      | error message =>
          by_cases hcond : (strContains message "DataUnavailableException"
              || strContains message "GetCostAndUsage") = true
          · simp [hfs, hrem, hcond] at ha
            exact ha
          · simp [hfs, hrem, hcond] at ha
            exact ha
      | ok payload =>
          simp [hfs, hrem] at ha
          exact ha

/-- Claim C8: the cost query window always ends at today and starts at the
first day of the current month, except when today is the first calendar day
of a month, in which case it starts at the first day of the prior month. -/
theorem c8_cost_window (granularity : String) (env : CostEnv) (h : validDate env.today) :
    (∀ a ∈ (get_cost_payload granularity env).calls,
        a.get? 3 = some ("Start=" ++ isoDate (costMonthStart env.today)
          ++ ",End=" ++ isoDate env.today)) ∧
    costMonthStart env.today =
      (if env.today.day = 1 then
        (if env.today.month = 1 then ⟨env.today.year - 1, 12, 1⟩
         else ⟨env.today.year, env.today.month - 1, 1⟩)
       else ⟨env.today.year, env.today.month, 1⟩) := by
  constructor
  · intro a ha
    have := cost_calls_args granularity env a ha
    subst this
    simp [costArgs]
  · rcases htoday : env.today with ⟨y, m, d⟩
    rw [htoday] at h
    obtain ⟨hy1, hy2, hm1, hm2, hd1, hd2⟩ := h
    have hm1n : 1 ≤ m := hm1
    have hm2n : m ≤ 12 := hm2
    simp only [costMonthStart, replaceDay, prevDay]
    by_cases hd : d = 1
    · subst hd
      by_cases hm : m = 1
      · subst hm
        norm_num
      · have hmgt : 1 < m := by omega
        simp [hmgt, hm]
    · have hne : (⟨y, m, d⟩ : PyDate) ≠ ⟨y, m, 1⟩ := by
        simp [PyDate.mk.injEq, hd]
      simp [hne, hd]

theorem c8_cost_window_witness :
    validDate ⟨2026, 10, 12⟩ ∧
    ((∀ a ∈ (get_cost_payload "MONTHLY"
          ⟨⟨2026, 10, 12⟩, fun _ => none, fun _ => Except.ok Json.null⟩).calls,
        a.get? 3 = some ("Start=" ++ isoDate (costMonthStart ⟨2026, 10, 12⟩)
          ++ ",End=" ++ isoDate ⟨2026, 10, 12⟩)) ∧
      costMonthStart ⟨2026, 10, 12⟩ =
        (if (12 : Nat) = 1 then
          (if (10 : Nat) = 1 then ⟨2026 - 1, 12, 1⟩ else ⟨2026, 10 - 1, 1⟩)
         else ⟨2026, 10, 1⟩)) :=
  ⟨by decide,
   c8_cost_window "MONTHLY" ⟨⟨2026, 10, 12⟩, fun _ => none, fun _ => Except.ok Json.null⟩
     (by decide)⟩

/-! ## Claim C6: same-day cost-report caching -/

/-- `get_cost_payload` changes the filesystem at most at its own cache file. -/
theorem cost_fs_preserve (granularity : String) (env : CostEnv) (n : String)
    (hne : n ≠ cacheFileName granularity env.today) :
    (get_cost_payload granularity env).fs n = env.fs n := by
  unfold get_cost_payload
  cases hfs : env.fs (cacheFileName granularity env.today) with
  | some p => simp [hfs]
  | none =>
      cases hrem : env.remote (costArgs granularity (costMonthStart env.today) env.today) with
      | error message =>
          by_cases hcond : (strContains message "DataUnavailableException"
              || strContains message "GetCostAndUsage") = true
          · simp [hfs, hrem, hcond]
          · simp [hfs, hrem, hcond]
      | ok payload => simp [hfs, hrem, hne]

/-- On a cache miss the remote call is always issued, whatever its outcome. -/
theorem cost_calls_of_miss (granularity : String) (env : CostEnv)
    (h : env.fs (cacheFileName granularity env.today) = none) :
    (get_cost_payload granularity env).calls
      = [costArgs granularity (costMonthStart env.today) env.today] := by
  unfold get_cost_payload
  cases hrem : env.remote (costArgs granularity (costMonthStart env.today) env.today) with
  | error message =>
      by_cases hcond : (strContains message "DataUnavailableException"
          || strContains message "GetCostAndUsage") = true
      · simp [h, hrem, hcond]
      · simp [h, hrem, hcond]
  | ok payload => simp [h, hrem]

/-- Claim C6: a cache hit returns the stored content with no remote query and
no filesystem change; a cache miss with a successful remote query issues
exactly one remote call, persists the raw result under the cache file name,
and returns it, so that a second same-day same-granularity call returns the
identical content with no remote query; a call on a new (different, valid)
date whose cache file is absent issues a new remote query. -/
theorem c6_cost_cache (granularity : String) (env : CostEnv) :
    (∀ p, env.fs (cacheFileName granularity env.today) = some p →
        (get_cost_payload granularity env).result = Except.ok p ∧
        (get_cost_payload granularity env).calls = [] ∧
        (get_cost_payload granularity env).fs = env.fs) ∧
    (∀ p, env.fs (cacheFileName granularity env.today) = none →
        env.remote (costArgs granularity (costMonthStart env.today) env.today)
            = Except.ok p →
        (get_cost_payload granularity env).result = Except.ok p ∧
        (get_cost_payload granularity env).calls
            = [costArgs granularity (costMonthStart env.today) env.today] ∧
        (get_cost_payload granularity env).fs (cacheFileName granularity env.today)
            = some p ∧
        (∀ r2, (get_cost_payload granularity
                  ⟨env.today, (get_cost_payload granularity env).fs, r2⟩).result
                = Except.ok p ∧
               (get_cost_payload granularity
                  ⟨env.today, (get_cost_payload granularity env).fs, r2⟩).calls = [])) ∧
    (∀ d2 r2, validDate env.today → validDate d2 → d2 ≠ env.today →
        env.fs (cacheFileName granularity d2) = none →
        (get_cost_payload granularity
            ⟨d2, (get_cost_payload granularity env).fs, r2⟩).calls ≠ []) := by
  refine ⟨?_, ?_, ?_⟩
  · intro p hp
    refine ⟨?_, ?_, ?_⟩ <;> simp [get_cost_payload, hp]
  · intro p hmiss hok
    refine ⟨?_, ?_, ?_, ?_⟩
    · simp [get_cost_payload, hmiss, hok]
    · simp [get_cost_payload, hmiss, hok]
    · simp [get_cost_payload, hmiss, hok]
    · intro r2
      constructor <;> simp [get_cost_payload, hmiss, hok]
  · intro d2 r2 hv1 hv2 hne hmiss2
    have hnames : cacheFileName granularity d2 ≠ cacheFileName granularity env.today :=
      fun hc => hne (cacheFileName_inj granularity d2 env.today hv2 hv1 hc)
    have hfs2 : (get_cost_payload granularity env).fs (cacheFileName granularity d2)
        = env.fs (cacheFileName granularity d2) :=
      cost_fs_preserve granularity env _ hnames
    have hmiss3 : (get_cost_payload granularity
        ⟨d2, (get_cost_payload granularity env).fs, r2⟩).calls
          = [costArgs granularity (costMonthStart d2) d2] := by
      apply cost_calls_of_miss
      show (get_cost_payload granularity env).fs (cacheFileName granularity d2) = none
      rw [hfs2, hmiss2]
    rw [hmiss3]
    simp

theorem c6_cost_cache_witness :
    ((fun _ => none : String → Option Json) (cacheFileName "MONTHLY" ⟨2026, 10, 12⟩) = none) ∧
    ((fun _ => Except.ok (Json.num "1") : List String → Except String Json)
        (costArgs "MONTHLY" (costMonthStart ⟨2026, 10, 12⟩) ⟨2026, 10, 12⟩)
      = Except.ok (Json.num "1")) ∧
    ((get_cost_payload "MONTHLY"
        ⟨⟨2026, 10, 12⟩, fun _ => none, fun _ => Except.ok (Json.num "1")⟩).result
      = Except.ok (Json.num "1") ∧
     (get_cost_payload "MONTHLY"
        ⟨⟨2026, 10, 12⟩, fun _ => none, fun _ => Except.ok (Json.num "1")⟩).calls
      = [costArgs "MONTHLY" (costMonthStart ⟨2026, 10, 12⟩) ⟨2026, 10, 12⟩] ∧
     (get_cost_payload "MONTHLY"
        ⟨⟨2026, 10, 12⟩, fun _ => none, fun _ => Except.ok (Json.num "1")⟩).fs
          (cacheFileName "MONTHLY" ⟨2026, 10, 12⟩)
      = some (Json.num "1") ∧
     (∀ r2, (get_cost_payload "MONTHLY"
          ⟨⟨2026, 10, 12⟩,
           (get_cost_payload "MONTHLY"
              ⟨⟨2026, 10, 12⟩, fun _ => none, fun _ => Except.ok (Json.num "1")⟩).fs,
           r2⟩).result = Except.ok (Json.num "1") ∧
        (get_cost_payload "MONTHLY"
          ⟨⟨2026, 10, 12⟩,
           (get_cost_payload "MONTHLY"
              ⟨⟨2026, 10, 12⟩, fun _ => none, fun _ => Except.ok (Json.num "1")⟩).fs,
           r2⟩).calls = [])) :=
  ⟨rfl, rfl,
   (c6_cost_cache "MONTHLY"
      ⟨⟨2026, 10, 12⟩, fun _ => none, fun _ => Except.ok (Json.num "1")⟩).2.1
     (Json.num "1") rfl rfl⟩

/-! ## Claim C4: downgrading of cost-query failures

The code downgrades a failure to the empty result set when the message
contains `DataUnavailableException` or merely mentions `GetCostAndUsage`;
the latter also matches failures (access denied, validation errors naming
the operation) that do not indicate that data is not yet available, so the
claimed equivalence with data-unavailability fails. -/

theorem c4_counterexample :
    (get_cost_payload "MONTHLY"
        ⟨⟨2026, 10, 12⟩, fun _ => none,
         fun _ => Except.error "An error occurred (AccessDeniedException) when calling the GetCostAndUsage operation: User is not authorized"⟩).result
      = Except.ok emptyResults ∧
    specIndicatesDataUnavailable
      "An error occurred (AccessDeniedException) when calling the GetCostAndUsage operation: User is not authorized"
      = false := by
  constructor
  · rfl
  · rfl

/-- Claim C4 (amended): on a cache miss, a failing cost query is downgraded
to the empty result set exactly when the failure message contains
`DataUnavailableException` or the substring `GetCostAndUsage`; any other
failure propagates to the caller unchanged. -/
theorem c4_downgrade_iff (granularity : String) (env : CostEnv) (message : String)
    (hmiss : env.fs (cacheFileName granularity env.today) = none)
    (herr : env.remote (costArgs granularity (costMonthStart env.today) env.today)
        = Except.error message) :
    ((get_cost_payload granularity env).result = Except.ok emptyResults ↔
      (strContains message "DataUnavailableException" = true ∨
       strContains message "GetCostAndUsage" = true)) ∧
    ((strContains message "DataUnavailableException" = false ∧
      strContains message "GetCostAndUsage" = false) →
      (get_cost_payload granularity env).result = Except.error message) := by
  by_cases hcond : (strContains message "DataUnavailableException"
      || strContains message "GetCostAndUsage") = true
  · constructor
    · rw [Bool.or_eq_true] at hcond
      simp [get_cost_payload, hmiss, herr, hcond]
    · intro hfalse
      rw [Bool.or_eq_true] at hcond
      rcases hcond with h1 | h1 <;> simp [hfalse.1, hfalse.2] at h1
  · have hcond2 : (strContains message "DataUnavailableException"
        || strContains message "GetCostAndUsage") = false := by
      revert hcond
      cases strContains message "DataUnavailableException"
          || strContains message "GetCostAndUsage" <;> simp
    rw [Bool.or_eq_false_iff] at hcond2
    constructor
    · simp [get_cost_payload, hmiss, herr, hcond2.1, hcond2.2, emptyResults]
    · intro _
      simp [get_cost_payload, hmiss, herr, hcond2.1, hcond2.2]

theorem c4_downgrade_iff_witness :
    ((fun _ => none : String → Option Json) (cacheFileName "DAILY" ⟨2026, 2, 1⟩) = none) ∧
    ((fun _ => Except.error "An error occurred (DataUnavailableException) when calling the GetCostAndUsage operation: Data is not available"
        : List String → Except String Json)
      (costArgs "DAILY" (costMonthStart ⟨2026, 2, 1⟩) ⟨2026, 2, 1⟩)
      = Except.error "An error occurred (DataUnavailableException) when calling the GetCostAndUsage operation: Data is not available") ∧
    (((get_cost_payload "DAILY"
        ⟨⟨2026, 2, 1⟩, fun _ => none,
         fun _ => Except.error "An error occurred (DataUnavailableException) when calling the GetCostAndUsage operation: Data is not available"⟩).result
        = Except.ok emptyResults ↔
      (strContains "An error occurred (DataUnavailableException) when calling the GetCostAndUsage operation: Data is not available" "DataUnavailableException" = true ∨
       strContains "An error occurred (DataUnavailableException) when calling the GetCostAndUsage operation: Data is not available" "GetCostAndUsage" = true)) ∧
     ((strContains "An error occurred (DataUnavailableException) when calling the GetCostAndUsage operation: Data is not available" "DataUnavailableException" = false ∧
       strContains "An error occurred (DataUnavailableException) when calling the GetCostAndUsage operation: Data is not available" "GetCostAndUsage" = false) →
      (get_cost_payload "DAILY"
        ⟨⟨2026, 2, 1⟩, fun _ => none,
         fun _ => Except.error "An error occurred (DataUnavailableException) when calling the GetCostAndUsage operation: Data is not available"⟩).result
        = Except.error "An error occurred (DataUnavailableException) when calling the GetCostAndUsage operation: Data is not available")) :=
  ⟨rfl, rfl,
   c4_downgrade_iff "DAILY"
     ⟨⟨2026, 2, 1⟩, fun _ => none,
      fun _ => Except.error "An error occurred (DataUnavailableException) when calling the GetCostAndUsage operation: Data is not available"⟩
     "An error occurred (DataUnavailableException) when calling the GetCostAndUsage operation: Data is not available"
     rfl rfl⟩

/-! ## Claims C1 and C7: `update_image` failure handling

When a step inside the try block raises and the handler terminate call also
raises, Python propagates the handler exception in place of the original
one; the claim that the original error still reaches the caller fails. -/

theorem c1_counterexample :
    (update_image {} ⟨Except.ok "i-1", Except.error "boom", Except.ok "dns",
        Except.ok 0, Except.ok "ami-new", Except.ok (), Except.ok (), Except.ok (),
        Except.ok (), Except.error "terminate failed"⟩ "ami-old" "snap-old" false).2
      = Except.error "terminate failed" ∧
    (update_image {} ⟨Except.ok "i-1", Except.error "boom", Except.ok "dns",
        Except.ok 0, Except.ok "ami-new", Except.ok (), Except.ok (), Except.ok (),
        Except.ok (), Except.error "terminate failed"⟩ "ami-old" "snap-old" false).2
      ≠ Except.error "boom" := by
  constructor
  · rfl
  · rw [show (update_image {} ⟨Except.ok "i-1", Except.error "boom", Except.ok "dns",
        Except.ok 0, Except.ok "ami-new", Except.ok (), Except.ok (), Except.ok (),
        Except.ok (), Except.error "terminate failed"⟩ "ami-old" "snap-old" false).2
        = Except.error "terminate failed" from rfl]
    simp

/-- Claim C1 (amended): if any step inside the try block raises after the
worker instance was launched, the worker terminate call is issued as cleanup
and an error propagates to the caller; when the cleanup terminate succeeds
the original exception is re-raised, but when the cleanup terminate itself
raises, the cleanup failure (not the original error) propagates. -/
theorem c1_cleanup_reraise (cfg : AppConfig) (env : UpdateEnv)
    (amiToUpdate amiSnapshotId instanceId e : String) (rebuild : Bool)
    (hrun : env.run_instances = Except.ok instanceId)
    (htry : (update_image_try cfg env amiToUpdate amiSnapshotId rebuild instanceId).2
        = Except.error e) :
    ACall.terminateCall instanceId
        ∈ (update_image cfg env amiToUpdate amiSnapshotId rebuild).1 ∧
    (update_image cfg env amiToUpdate amiSnapshotId rebuild).2
      = (match env.term_cleanup with
         | Except.ok _ => Except.error e
         | Except.error cleanupErr => Except.error cleanupErr) := by
  cases hclean : env.term_cleanup with
  | ok u => constructor <;> simp [update_image, hrun, htry, hclean]
  | error cleanupErr => constructor <;> simp [update_image, hrun, htry, hclean]

theorem c1_cleanup_reraise_witness :
    ((⟨Except.ok "i-7", Except.ok (), Except.ok "host", Except.error "ssh blew up",
        Except.ok "x", Except.ok (), Except.ok (), Except.ok (), Except.ok (),
        Except.ok ()⟩ : UpdateEnv).run_instances = Except.ok "i-7") ∧
    ((update_image_try {} ⟨Except.ok "i-7", Except.ok (), Except.ok "host",
        Except.error "ssh blew up", Except.ok "x", Except.ok (), Except.ok (),
        Except.ok (), Except.ok (), Except.ok ()⟩ "ami-a" "snap-a" true "i-7").2
      = Except.error "ssh blew up") ∧
    (ACall.terminateCall "i-7"
        ∈ (update_image {} ⟨Except.ok "i-7", Except.ok (), Except.ok "host",
            Except.error "ssh blew up", Except.ok "x", Except.ok (), Except.ok (),
            Except.ok (), Except.ok (), Except.ok ()⟩ "ami-a" "snap-a" true).1 ∧
     (update_image {} ⟨Except.ok "i-7", Except.ok (), Except.ok "host",
         Except.error "ssh blew up", Except.ok "x", Except.ok (), Except.ok (),
         Except.ok (), Except.ok (), Except.ok ()⟩ "ami-a" "snap-a" true).2
       = (match (Except.ok () : Except String Unit) with
          | Except.ok _ => Except.error "ssh blew up"
          | Except.error cleanupErr => Except.error cleanupErr)) :=
  ⟨rfl, rfl,
   c1_cleanup_reraise {} ⟨Except.ok "i-7", Except.ok (), Except.ok "host",
       Except.error "ssh blew up", Except.ok "x", Except.ok (), Except.ok (),
       Except.ok (), Except.ok (), Except.ok ()⟩ "ami-a" "snap-a" "i-7" "ssh blew up" true
     rfl rfl⟩

/-- Claim C7: if the remote shell command step returns a non-zero exit
status, the worker terminate call is issued, no create-image call is ever
made, and a failure propagates to the caller. -/
theorem c7_ssh_failure (cfg : AppConfig) (env : UpdateEnv)
    (amiToUpdate amiSnapshotId instanceId dnsName : String) (rebuild : Bool) (status : Int)
    (hrun : env.run_instances = Except.ok instanceId)
    (hwait : env.wait_running = Except.ok ())
    (hdns : env.describe_dns = Except.ok dnsName)
    (hssh : env.ssh_status = Except.ok status)
    (hstatus : status ≠ 0) :
    ACall.terminateCall instanceId
        ∈ (update_image cfg env amiToUpdate amiSnapshotId rebuild).1 ∧
    (∀ iid2, ACall.createImage iid2
        ∉ (update_image cfg env amiToUpdate amiSnapshotId rebuild).1) ∧
    (∃ e, (update_image cfg env amiToUpdate amiSnapshotId rebuild).2 = Except.error e) := by
  have htry : (update_image_try cfg env amiToUpdate amiSnapshotId rebuild instanceId)
      = ([ACall.waitRunning instanceId, ACall.describeDns instanceId,
          ACall.sleepSecs 60,
          ACall.sshCmd dnsName (if rebuild then cfg.rebuild_command else cfg.update_command)],
         Except.error "Remote update command failed") := by
    simp [update_image_try, hwait, hdns, hssh, hstatus]
  cases hclean : env.term_cleanup with
  | ok u =>
      refine ⟨?_, ?_, ?_⟩
      · simp [update_image, hrun, htry, hclean]
      · intro iid2
        simp [update_image, hrun, htry, hclean]
      · exact ⟨"Remote update command failed", by simp [update_image, hrun, htry, hclean]⟩
  | error cleanupErr =>
      refine ⟨?_, ?_, ?_⟩
      · simp [update_image, hrun, htry, hclean]
      · intro iid2
        simp [update_image, hrun, htry, hclean]
      · exact ⟨cleanupErr, by simp [update_image, hrun, htry, hclean]⟩

theorem c7_ssh_failure_witness :
    ((⟨Except.ok "i-9", Except.ok (), Except.ok "ec2-host", Except.ok 2,
        Except.ok "x", Except.ok (), Except.ok (), Except.ok (), Except.ok (),
        Except.ok ()⟩ : UpdateEnv).run_instances = Except.ok "i-9") ∧
    ((2 : Int) ≠ 0) ∧
    (ACall.terminateCall "i-9"
        ∈ (update_image {} ⟨Except.ok "i-9", Except.ok (), Except.ok "ec2-host",
            Except.ok 2, Except.ok "x", Except.ok (), Except.ok (), Except.ok (),
            Except.ok (), Except.ok ()⟩ "ami-b" "snap-b" false).1 ∧
     (∀ iid2, ACall.createImage iid2
        ∉ (update_image {} ⟨Except.ok "i-9", Except.ok (), Except.ok "ec2-host",
            Except.ok 2, Except.ok "x", Except.ok (), Except.ok (), Except.ok (),
            Except.ok (), Except.ok ()⟩ "ami-b" "snap-b" false).1) ∧
     (∃ e, (update_image {} ⟨Except.ok "i-9", Except.ok (), Except.ok "ec2-host",
            Except.ok 2, Except.ok "x", Except.ok (), Except.ok (), Except.ok (),
            Except.ok (), Except.ok ()⟩ "ami-b" "snap-b" false).2 = Except.error e)) :=
  ⟨rfl, by decide,
   c7_ssh_failure {} ⟨Except.ok "i-9", Except.ok (), Except.ok "ec2-host",
       Except.ok 2, Except.ok "x", Except.ok (), Except.ok (), Except.ok (),
       Except.ok (), Except.ok ()⟩ "ami-b" "snap-b" "i-9" "ec2-host" false 2
     rfl rfl rfl rfl (by decide)⟩

/-! ## Claim C9: executable resolution -/

/-- Every element of the joined list occurs in the joined string. -/
theorem joinComma_substr (c : String) :
    ∀ l : List String, c ∈ l →
      ∃ p q : List Char, (joinComma l).data = p ++ (c.data ++ q) := by
  intro l
  induction l with
  | nil => intro hc; cases hc
  | cons a rest ih =>
      intro hc
      cases rest with
      | nil =>
          have : c = a := by simpa using hc
          subst this
          exact ⟨[], [], by simp [joinComma]⟩
      | cons b rest2 =>
          rcases List.mem_cons.mp hc with h | h
          · subst h
            exact ⟨[], (", " ++ joinComma (b :: rest2)).data,
              by simp [joinComma, String.data_append, List.append_assoc]⟩
          · obtain ⟨p, q, hp⟩ := ih h
            refine ⟨(a ++ ", ").data ++ p, q, ?_⟩
            simp [joinComma, String.data_append, List.append_assoc, hp]

/-- If every candidate is empty or fails to resolve, the loop returns none. -/
theorem resolveFirst_none (env : PathEnv) :
    ∀ l : List String, (∀ c ∈ l, c = "" ∨ resolveCandidate env c = none) →
      resolveFirst env l = none := by
  intro l
  induction l with
  | nil => intro _; rfl
  | cons a rest ih =>
      intro h
      rcases h a (List.mem_cons_self a rest) with ha | ha
      · subst ha
        simp only [resolveFirst, if_pos rfl]
        exact ih (fun c hc => h c (List.mem_cons_of_mem _ hc))
      · by_cases hae : a = ""
        · simp only [resolveFirst, if_pos hae]
          exact ih (fun c hc => h c (List.mem_cons_of_mem _ hc))
        · simp only [resolveFirst, if_neg hae, ha]
          exact ih (fun c hc => h c (List.mem_cons_of_mem _ hc))

/-- If all earlier candidates are empty or fail and `c` (non-empty) resolves
to `r`, the loop returns `r`. -/
theorem resolveFirst_found (env : PathEnv) (c r : String)
    (hne : c ≠ "") (hsome : resolveCandidate env c = some r) :
    ∀ pre post : List String,
      (∀ c2 ∈ pre, c2 = "" ∨ resolveCandidate env c2 = none) →
      resolveFirst env (pre ++ c :: post) = some r := by
  intro pre
  induction pre with
  | nil =>
      intro post _
      simp only [List.nil_append, resolveFirst, if_neg hne, hsome]
  | cons a rest ih =>
      intro post h
      have hstep := ih post (fun c2 hc2 => h c2 (List.mem_cons_of_mem _ hc2))
      rcases h a (List.mem_cons_self a rest) with ha | ha
      · subst ha
        simpa only [List.cons_append, resolveFirst, if_pos rfl] using hstep
      · by_cases hae : a = ""
        · simpa only [List.cons_append, resolveFirst, if_pos hae] using hstep
        · simpa only [List.cons_append, resolveFirst, if_neg hae, ha] using hstep

/-- Claim C9: executable resolution returns the first non-empty candidate
that resolves via the search path or a literal filesystem location, earlier
candidates strictly preferred; when no candidate resolves, construction
fails with an error message that names every candidate tried (every
non-empty candidate occurs in the message). -/
theorem c9_resolve (env : PathEnv) (candidates : List String) (displayName : String) :
    (∀ pre c post r, candidates = pre ++ c :: post →
        (∀ c2 ∈ pre, c2 = "" ∨ resolveCandidate env c2 = none) →
        c ≠ "" → resolveCandidate env c = some r →
        resolve_executable env candidates displayName = Except.ok r) ∧
    ((∀ c ∈ candidates, c = "" ∨ resolveCandidate env c = none) →
        resolve_executable env candidates displayName
          = Except.error (notFoundMsg displayName candidates) ∧
        (∀ c ∈ candidates, c ≠ "" → SubstrOf c (notFoundMsg displayName candidates))) := by
  constructor
  · intro pre c post r hsplit hprev hne hsome
    subst hsplit
    unfold resolve_executable
    rw [resolveFirst_found env c r hne hsome pre post hprev]
  · intro hall
    refine ⟨?_, ?_⟩
    · unfold resolve_executable
      rw [resolveFirst_none env candidates hall]
    · intro c hc hne
      have hfil : c ∈ candidates.filter (fun c2 => decide (c2 ≠ "")) :=
        List.mem_filter.mpr ⟨hc, by simp [hne]⟩
      obtain ⟨p, q, hpq⟩ := joinComma_substr c _ hfil
      refine ⟨(displayName ++ " executable not found. Checked: ").data ++ p,
        q ++ (". Install " ++ displayName
          ++ " and ensure it is in PATH, or set the full path in config (current: '"
          ++ (candidates.filter (fun c2 => decide (c2 ≠ ""))).headD "" ++ "').").data, ?_⟩
      simp only [ne_eq, decide_not] at hpq
      simp [notFoundMsg, String.data_append, List.append_assoc, hpq]

theorem c9_resolve_witness :
    (["", "aws", "aws.exe", "aws.cmd"] = [""] ++ "aws" :: ["aws.exe", "aws.cmd"]) ∧
    ("aws" : String) ≠ "" ∧
    resolveCandidate ⟨fun c => if c = "aws" then some "C:/aws" else none, id, fun _ => false⟩
        "aws" = some "C:/aws" ∧
    resolve_executable ⟨fun c => if c = "aws" then some "C:/aws" else none, id, fun _ => false⟩
        ["", "aws", "aws.exe", "aws.cmd"] "AWS CLI" = Except.ok "C:/aws" :=
  ⟨rfl, by decide, rfl,
   (c9_resolve ⟨fun c => if c = "aws" then some "C:/aws" else none, id, fun _ => false⟩
       ["", "aws", "aws.exe", "aws.cmd"] "AWS CLI").1
     [""] "aws" ["aws.exe", "aws.cmd"] "C:/aws" rfl
     (by intro c2 hc2; left; simpa using hc2) (by decide) rfl⟩

/-! ## Claim C10: unknown configuration keys are rejected -/

/-- Key membership after a dict assignment. -/
theorem assocSet_keys (k2 : String) :
    ∀ (l : List (String × Json)) (k : String) (v : Json),
      k2 ∈ (assocSet l k v).map Prod.fst ↔ k2 ∈ l.map Prod.fst ∨ k2 = k := by
  intro l
  induction l with
  | nil => intro k v; simp [assocSet]
  | cons a rest ih =>
      intro k v
      by_cases hk : a.1 = k
      · rcases a with ⟨a1, a2⟩
        subst hk
        simp [assocSet]
        tauto
      · rcases a with ⟨a1, a2⟩
        simp only [assocSet, if_neg hk, List.map_cons, List.mem_cons, ih]
        tauto

/-- Keys of the base dict survive the merge loop. -/
theorem deepUpdateEntries_keys_base :
    ∀ (override base : List (String × Json)) (k : String),
      k ∈ base.map Prod.fst → k ∈ (deepUpdateEntries base override).map Prod.fst := by
  intro override
  induction override with
  | nil => intro base k hk; simpa [deepUpdateEntries] using hk
  | cons a rest ih =>
      intro base k hk
      rcases a with ⟨k1, v⟩
      simp only [deepUpdateEntries]
      apply ih
      rw [assocSet_keys]
      exact Or.inl hk

/-- Every key of the override document is a key of the merged document. -/
theorem deepUpdateEntries_keys_override :
    ∀ (override base : List (String × Json)) (k : String),
      k ∈ override.map Prod.fst → k ∈ (deepUpdateEntries base override).map Prod.fst := by
  intro override
  induction override with
  | nil => intro base k hk; cases hk
  | cons a rest ih =>
      intro base k hk
      rcases a with ⟨k1, v⟩
      rw [List.map_cons] at hk
      rcases List.mem_cons.mp hk with h | h
      · simp only [deepUpdateEntries]
        apply deepUpdateEntries_keys_base
        rw [assocSet_keys]
        exact Or.inr h
      · simp only [deepUpdateEntries]
        apply ih
        exact h

/-- Claim C10: loading a configuration document with a top-level key that is
not a recognized configuration field fails (the merged dict is passed as
keyword arguments to the dataclass constructor, which rejects unknown
keywords); unknown keys are not silently ignored. -/
theorem c10_unknown_key (raw : List (String × Json)) (k : String)
    (hk : k ∈ raw.map Prod.fst) (hnotfield : k ∉ appConfigFieldNames) :
    ∃ msg, load_config_from_doc raw = Except.error msg := by
  have hmem : k ∈ (deepUpdateEntries defaultsDoc raw).map Prod.fst :=
    deepUpdateEntries_keys_override raw defaultsDoc k hk
  obtain ⟨kv, hkv, hfst⟩ := List.mem_map.mp hmem
  have hall : ((deepUpdateEntries defaultsDoc raw).all
      (fun kv => kv.1 ∈ appConfigFieldNames)) = false := by
    rw [List.all_eq_false]
    exact ⟨kv, hkv, by simp [hfst, hnotfield]⟩
  refine ⟨"__init__() got an unexpected keyword argument", ?_⟩
  unfold load_config_from_doc
  simp [hall]

theorem c10_unknown_key_witness :
    ("unknown_key" ∈ ([("unknown_key", Json.str "x")] : List (String × Json)).map Prod.fst) ∧
    "unknown_key" ∉ appConfigFieldNames ∧
    (∃ msg, load_config_from_doc [("unknown_key", Json.str "x")] = Except.error msg) :=
  ⟨by simp, by decide,
   c10_unknown_key [("unknown_key", Json.str "x")] "unknown_key" (by simp) (by decide)⟩

/-! ## Claim C2: `refresh` under an acquired guard -/

/-- Claim C2: a `refresh` call that acquires the guard replaces the held
snapshot and clears the last-error field when the build succeeds; it leaves
the held snapshot unchanged and records the error message when the build
raises; in both cases the guard is released and a menu re-render is
triggered, and the call returns normally. -/
theorem c2_refresh_guard (σ : Type) (force : Bool) (build : Except String σ)
    (s : GState σ) (hlock : s.lockHeld = false) :
    (∀ snap, build = Except.ok snap →
        (refreshRun force build s).1.snapshot = some snap ∧
        (refreshRun force build s).1.lastError = "") ∧
    (∀ e, build = Except.error e →
        (refreshRun force build s).1.snapshot = s.snapshot ∧
        (refreshRun force build s).1.lastError = e) ∧
    (refreshRun force build s).1.lockHeld = false ∧
    (refreshRun force build s).1.renders = s.renders + 1 ∧
    (refreshRun force build s).2.pc = RPc.ret := by
  cases build with
  | ok snap =>
      cases hf : force <;> simp [refreshRun, runThread, rstep, RPc.isDone, hlock]
  | error e =>
      cases hf : force <;> simp [refreshRun, runThread, rstep, RPc.isDone, hlock]

theorem c2_refresh_guard_witness :
    ((⟨false, some 7, "old error", 3, []⟩ : GState Nat).lockHeld = false) ∧
    ((∀ snap, (Except.ok 42 : Except String Nat) = Except.ok snap →
        (refreshRun true (Except.ok 42) (⟨false, some 7, "old error", 3, []⟩ : GState Nat)).1.snapshot
          = some snap ∧
        (refreshRun true (Except.ok 42) (⟨false, some 7, "old error", 3, []⟩ : GState Nat)).1.lastError
          = "") ∧
     (∀ e, (Except.ok 42 : Except String Nat) = Except.error e →
        (refreshRun true (Except.ok 42) (⟨false, some 7, "old error", 3, []⟩ : GState Nat)).1.snapshot
          = (⟨false, some 7, "old error", 3, []⟩ : GState Nat).snapshot ∧
        (refreshRun true (Except.ok 42) (⟨false, some 7, "old error", 3, []⟩ : GState Nat)).1.lastError
          = e) ∧
     (refreshRun true (Except.ok 42) (⟨false, some 7, "old error", 3, []⟩ : GState Nat)).1.lockHeld
        = false ∧
     (refreshRun true (Except.ok 42) (⟨false, some 7, "old error", 3, []⟩ : GState Nat)).1.renders
        = (⟨false, some 7, "old error", 3, []⟩ : GState Nat).renders + 1 ∧
     (refreshRun true (Except.ok 42) (⟨false, some 7, "old error", 3, []⟩ : GState Nat)).2.pc
        = RPc.ret) :=
  ⟨rfl, c2_refresh_guard Nat true (Except.ok 42) ⟨false, some 7, "old error", 3, []⟩ rfl⟩

/-! ## Claim C3: at most one snapshot build in flight -/

/-- The lock invariant: the refresh guard is held exactly when one
invocation is inside the guarded region. -/
theorem lockInv_step (σ : Type) (c c2 : GState σ × List (RThread σ))
    (hstep : SysStep c c2)
    (hinv : csCount c.2 = (if c.1.lockHeld then 1 else 0)) :
    csCount c2.2 = (if c2.1.lockHeld then 1 else 0) := by
  rcases hstep with ⟨s, ts, i, h, hrun⟩
  have hget : ts[i] = ts.get ⟨i, h⟩ := (List.get_eq_getElem ts ⟨i, h⟩).symm
  have hmem : ts.get ⟨i, h⟩ ∈ ts := List.get_mem ts i h
  have hcount := List.countP_set (fun t2 => t2.pc.inCS) ts i (rstep s (ts.get ⟨i, h⟩)).2 h
  rw [hget] at hcount
  simp only [csCount] at hinv hcount ⊢
  generalize hts : ts.get ⟨i, h⟩ = t at hrun hmem hcount ⊢
  obtain ⟨f, b, pc⟩ := t
  have hposOf : pc.inCS = true → 0 < List.countP (fun t2 => t2.pc.inCS) ts := by
    intro hcs
    exact List.countP_pos.mpr ⟨_, hmem, by simpa using hcs⟩
  cases pc with
  | entry =>
      cases hl : s.lockHeld with
      | false =>
          have hv : List.countP (fun t2 => t2.pc.inCS) ts = 0 := by rw [hinv, hl]; rfl
          rw [hcount]
          set n := List.countP (fun t2 => t2.pc.inCS) ts with hn
          simp [rstep, RPc.inCS, hl]
          all_goals omega
      | true =>
          have hv : List.countP (fun t2 => t2.pc.inCS) ts = 1 := by rw [hinv, hl]; rfl
          rw [hcount]
          set n := List.countP (fun t2 => t2.pc.inCS) ts with hn
          simp [rstep, RPc.inCS, hl]
          all_goals omega
  | body =>
      have hpos := hposOf (by simp [RPc.inCS])
      cases b with
      | ok snap =>
        cases hl : s.lockHeld with
        | false =>
            have hv : List.countP (fun t2 => t2.pc.inCS) ts = 0 := by rw [hinv, hl]; rfl
            rw [hcount]
            set n := List.countP (fun t2 => t2.pc.inCS) ts with hn
            simp [rstep, RPc.inCS, hl]
            all_goals omega
        | true =>
            have hv : List.countP (fun t2 => t2.pc.inCS) ts = 1 := by rw [hinv, hl]; rfl
            rw [hcount]
            set n := List.countP (fun t2 => t2.pc.inCS) ts with hn
            simp [rstep, RPc.inCS, hl]
            all_goals omega
      | error e =>
        cases hl : s.lockHeld with
        | false =>
            have hv : List.countP (fun t2 => t2.pc.inCS) ts = 0 := by rw [hinv, hl]; rfl
            rw [hcount]
            set n := List.countP (fun t2 => t2.pc.inCS) ts with hn
            simp [rstep, RPc.inCS, hl]
            all_goals omega
        | true =>
            have hv : List.countP (fun t2 => t2.pc.inCS) ts = 1 := by rw [hinv, hl]; rfl
            rw [hcount]
            set n := List.countP (fun t2 => t2.pc.inCS) ts with hn
            simp [rstep, RPc.inCS, hl]
            all_goals omega
  | clearErr =>
      have hpos := hposOf (by simp [RPc.inCS])
      cases hl : s.lockHeld with
      | false =>
          have hv : List.countP (fun t2 => t2.pc.inCS) ts = 0 := by rw [hinv, hl]; rfl
          rw [hcount]
          set n := List.countP (fun t2 => t2.pc.inCS) ts with hn
          simp [rstep, RPc.inCS, hl]
          all_goals omega
      | true =>
          have hv : List.countP (fun t2 => t2.pc.inCS) ts = 1 := by rw [hinv, hl]; rfl
          rw [hcount]
          set n := List.countP (fun t2 => t2.pc.inCS) ts with hn
          simp [rstep, RPc.inCS, hl]
          all_goals omega
  | notifyOk =>
      have hpos := hposOf (by simp [RPc.inCS])
      cases f with
      | false =>
        cases hl : s.lockHeld with
        | false =>
            have hv : List.countP (fun t2 => t2.pc.inCS) ts = 0 := by rw [hinv, hl]; rfl
            rw [hcount]
            set n := List.countP (fun t2 => t2.pc.inCS) ts with hn
            simp [rstep, RPc.inCS, hl]
            all_goals omega
        | true =>
            have hv : List.countP (fun t2 => t2.pc.inCS) ts = 1 := by rw [hinv, hl]; rfl
            rw [hcount]
            set n := List.countP (fun t2 => t2.pc.inCS) ts with hn
            simp [rstep, RPc.inCS, hl]
            all_goals omega
      | true =>
        cases hl : s.lockHeld with
        | false =>
            have hv : List.countP (fun t2 => t2.pc.inCS) ts = 0 := by rw [hinv, hl]; rfl
            rw [hcount]
            set n := List.countP (fun t2 => t2.pc.inCS) ts with hn
            simp [rstep, RPc.inCS, hl]
            all_goals omega
        | true =>
            have hv : List.countP (fun t2 => t2.pc.inCS) ts = 1 := by rw [hinv, hl]; rfl
            rw [hcount]
            set n := List.countP (fun t2 => t2.pc.inCS) ts with hn
            simp [rstep, RPc.inCS, hl]
            all_goals omega
  | recErr e =>
      have hpos := hposOf (by simp [RPc.inCS])
      cases hl : s.lockHeld with
      | false =>
          have hv : List.countP (fun t2 => t2.pc.inCS) ts = 0 := by rw [hinv, hl]; rfl
          rw [hcount]
          set n := List.countP (fun t2 => t2.pc.inCS) ts with hn
          simp [rstep, RPc.inCS, hl]
          all_goals omega
      | true =>
          have hv : List.countP (fun t2 => t2.pc.inCS) ts = 1 := by rw [hinv, hl]; rfl
          rw [hcount]
          set n := List.countP (fun t2 => t2.pc.inCS) ts with hn
          simp [rstep, RPc.inCS, hl]
          all_goals omega
  | release =>
      have hpos := hposOf (by simp [RPc.inCS])
      cases hl : s.lockHeld with
      | false =>
          have hv : List.countP (fun t2 => t2.pc.inCS) ts = 0 := by rw [hinv, hl]; rfl
          rw [hcount]
          set n := List.countP (fun t2 => t2.pc.inCS) ts with hn
          simp [rstep, RPc.inCS, hl]
          all_goals omega
      | true =>
          have hv : List.countP (fun t2 => t2.pc.inCS) ts = 1 := by rw [hinv, hl]; rfl
          rw [hcount]
          set n := List.countP (fun t2 => t2.pc.inCS) ts with hn
          simp [rstep, RPc.inCS, hl]
          all_goals omega
  | menu =>
      cases hl : s.lockHeld with
      | false =>
          have hv : List.countP (fun t2 => t2.pc.inCS) ts = 0 := by rw [hinv, hl]; rfl
          rw [hcount]
          set n := List.countP (fun t2 => t2.pc.inCS) ts with hn
          simp [rstep, RPc.inCS, hl]
          all_goals omega
      | true =>
          have hv : List.countP (fun t2 => t2.pc.inCS) ts = 1 := by rw [hinv, hl]; rfl
          rw [hcount]
          set n := List.countP (fun t2 => t2.pc.inCS) ts with hn
          simp [rstep, RPc.inCS, hl]
          all_goals omega
  | retSkip => simp [RPc.isDone] at hrun
  | ret => simp [RPc.isDone] at hrun

/-- The lock invariant is preserved along any interleaving. -/
theorem lockInv_reach (σ : Type) (c c2 : GState σ × List (RThread σ))
    (hreach : Relation.ReflTransGen SysStep c c2)
    (hinv : csCount c.2 = (if c.1.lockHeld then 1 else 0)) :
    csCount c2.2 = (if c2.1.lockHeld then 1 else 0) := by
  induction hreach with
  | refl => exact hinv
  | tail hab hbc ih => exact lockInv_step σ _ _ hbc ih

/-- Claim C3: for every interleaving of `refresh` invocations started from
an unlocked state, at most one invocation is inside the guarded
snapshot-build region at any reachable state; moreover an invocation whose
acquire step runs while the guard is held moves directly to its skip-return,
leaving the held snapshot and the last-error field unchanged. -/
theorem c3_mutual_exclusion (σ : Type) (s0 s : GState σ) (ts0 ts : List (RThread σ))
    (hl0 : s0.lockHeld = false)
    (hpc0 : ∀ t ∈ ts0, t.pc = RPc.entry)
    (hreach : Relation.ReflTransGen SysStep (s0, ts0) (s, ts)) :
    csCount ts ≤ 1 ∧
    (∀ i (hi : i < ts.length), (ts.get ⟨i, hi⟩).pc = RPc.entry → s.lockHeld = true →
        (rstep s (ts.get ⟨i, hi⟩)).1.snapshot = s.snapshot ∧
        (rstep s (ts.get ⟨i, hi⟩)).1.lastError = s.lastError ∧
        (rstep s (ts.get ⟨i, hi⟩)).2.pc = RPc.retSkip) := by
  have hinv0 : csCount ts0 = (if s0.lockHeld then 1 else 0) := by
    rw [hl0, if_neg (by simp)]
    simp only [csCount]
    rw [List.countP_eq_zero]
    intro t ht
    simp [hpc0 t ht, RPc.inCS]
  have hinv := lockInv_reach σ (s0, ts0) (s, ts) hreach hinv0
  constructor
  · rw [hinv]
    split <;> omega
  · intro i hi hpc hlock
    have hpc2 : ts[i].pc = RPc.entry := by
      rw [List.get_eq_getElem] at hpc
      exact hpc
    refine ⟨?_, ?_, ?_⟩ <;> simp [rstep, hpc2, hlock]

theorem c3_mutual_exclusion_witness :
    ((⟨false, none, "", 0, []⟩ : GState Nat).lockHeld = false) ∧
    (∀ t ∈ ([⟨false, Except.ok 1, RPc.entry⟩, ⟨true, Except.error "x", RPc.entry⟩]
        : List (RThread Nat)), t.pc = RPc.entry) ∧
    (csCount ([⟨false, Except.ok 1, RPc.entry⟩, ⟨true, Except.error "x", RPc.entry⟩]
        : List (RThread Nat)) ≤ 1 ∧
     (∀ i (hi : i < ([⟨false, Except.ok 1, RPc.entry⟩, ⟨true, Except.error "x", RPc.entry⟩]
          : List (RThread Nat)).length),
        (([⟨false, Except.ok 1, RPc.entry⟩, ⟨true, Except.error "x", RPc.entry⟩]
          : List (RThread Nat)).get ⟨i, hi⟩).pc = RPc.entry →
        (⟨false, none, "", 0, []⟩ : GState Nat).lockHeld = true →
        (rstep (⟨false, none, "", 0, []⟩ : GState Nat)
            (([⟨false, Except.ok 1, RPc.entry⟩, ⟨true, Except.error "x", RPc.entry⟩]
              : List (RThread Nat)).get ⟨i, hi⟩)).1.snapshot
          = (⟨false, none, "", 0, []⟩ : GState Nat).snapshot ∧
        (rstep (⟨false, none, "", 0, []⟩ : GState Nat)
            (([⟨false, Except.ok 1, RPc.entry⟩, ⟨true, Except.error "x", RPc.entry⟩]
              : List (RThread Nat)).get ⟨i, hi⟩)).1.lastError
          = (⟨false, none, "", 0, []⟩ : GState Nat).lastError ∧
        (rstep (⟨false, none, "", 0, []⟩ : GState Nat)
            (([⟨false, Except.ok 1, RPc.entry⟩, ⟨true, Except.error "x", RPc.entry⟩]
              : List (RThread Nat)).get ⟨i, hi⟩)).2.pc = RPc.retSkip)) :=
  ⟨rfl,
   (by
     intro t ht
     rcases List.mem_cons.mp ht with h | h
     · subst h; rfl
     · rcases List.mem_cons.mp h with h2 | h2
       · subst h2; rfl
       · cases h2),
   c3_mutual_exclusion Nat ⟨false, none, "", 0, []⟩ ⟨false, none, "", 0, []⟩
     [⟨false, Except.ok 1, RPc.entry⟩, ⟨true, Except.error "x", RPc.entry⟩]
     [⟨false, Except.ok 1, RPc.entry⟩, ⟨true, Except.error "x", RPc.entry⟩]
     rfl
     (by
       intro t ht
       rcases List.mem_cons.mp ht with h | h
       · subst h; rfl
       · rcases List.mem_cons.mp h with h2 | h2
         · subst h2; rfl
         · cases h2)
     Relation.ReflTransGen.refl⟩

/-! ## Claim C5: dispatched actions -/

/-- Claim C5: for every dispatched action, whether it succeeds or raises, the
runner records the outcome into the last-error field (clearing it on success,
setting the message on failure), emits a user-visible notification, and then
triggers exactly one forced refresh, in that order: the event log grows by a
segment containing exactly one `refreshCall true`, preceded by the
last-error write and the notification. -/
theorem c5_dispatch_refresh (σ : Type) (outcome : Except String Unit) (actionName : String)
    (build : Except String σ) (s : GState σ) :
    ∃ pre post : List Event,
      (runnerRun outcome actionName build s).log
          = s.log ++ (pre ++ Event.refreshCall true :: post) ∧
      Event.refreshCall true ∉ pre ∧
      Event.refreshCall true ∉ post ∧
      Event.errWrite (match outcome with
        | Except.ok _ => ""
        | Except.error e => e) ∈ pre ∧
      Event.notice "MyAWS" (match outcome with
        | Except.ok _ => actionName ++ " completed"
        | Except.error e => actionName ++ " failed: " ++ e) ∈ pre := by
  cases outcome with
  | ok u =>
      cases hl : s.lockHeld with
      | true =>
          refine ⟨[Event.errWrite "", Event.notice "MyAWS" (actionName ++ " completed")], [],
            ?_, by simp, by simp, by simp, by simp⟩
          simp [runnerRun, refreshRun, runThread, rstep, RPc.isDone, hl]
      | false =>
          cases build with
          | ok snap =>
              refine ⟨[Event.errWrite "", Event.notice "MyAWS" (actionName ++ " completed")],
                [Event.errWrite "", Event.notice "MyAWS" "Data refreshed", Event.render],
                ?_, by simp, by simp, by simp, by simp⟩
              simp [runnerRun, refreshRun, runThread, rstep, RPc.isDone, hl]
          | error e2 =>
              refine ⟨[Event.errWrite "", Event.notice "MyAWS" (actionName ++ " completed")],
                [Event.errWrite e2, Event.render],
                ?_, by simp, by simp, by simp, by simp⟩
              simp [runnerRun, refreshRun, runThread, rstep, RPc.isDone, hl]
  | error e =>
      cases hl : s.lockHeld with
      | true =>
          refine ⟨[Event.errWrite e, Event.notice "MyAWS" (actionName ++ " failed: " ++ e)], [],
            ?_, by simp, by simp, by simp, by simp⟩
          simp [runnerRun, refreshRun, runThread, rstep, RPc.isDone, hl]
      | false =>
          cases build with
          | ok snap =>
              refine ⟨[Event.errWrite e, Event.notice "MyAWS" (actionName ++ " failed: " ++ e)],
                [Event.errWrite "", Event.notice "MyAWS" "Data refreshed", Event.render],
                ?_, by simp, by simp, by simp, by simp⟩
              simp [runnerRun, refreshRun, runThread, rstep, RPc.isDone, hl]
          | error e2 =>
              refine ⟨[Event.errWrite e, Event.notice "MyAWS" (actionName ++ " failed: " ++ e)],
                [Event.errWrite e2, Event.render],
                ?_, by simp, by simp, by simp, by simp⟩
              simp [runnerRun, refreshRun, runThread, rstep, RPc.isDone, hl]
